import Mathlib

/-
Verification of the GuardianAI enforcement pipeline (guardianAI.py and
guardianAI2.py) against its specification.

The two Python files implement a filesystem policy watchdog.  The parts the
claims are about are embedded here as pure Lean functions:

  * `Chain.check_names`  — the oracle client (guardianAI.py lines 42-60);
    the external LLM call is modelled by its outcome (`Except Unit Raw`),
    and a raw response body is modelled by its JSON parse (`Raw`):
    `none` means `json.loads` raises `JSONDecodeError`, `some v` means it
    parses to the value `v`.
  * `parse_name_found`   — the `json.loads` / `.get("name_found", False)`
    logic of `process_name` (guardianAI.py lines 159-164).
  * `delete_path` / `delete_path2` — the deletion engines of the two files
    (guardianAI.py lines 98-150, guardianAI2.py lines 97-138).  Filesystem
    behaviour is modelled by a `PathState` oracle saying which operations
    raise; the function returns the Python return value (None/True/False,
    as `Option DeletionOutcome` enriched with the final state the spec
    names), the trace of performed effects, and whether the path still
    exists afterwards.
  * `process_name` / `process_name2` — the per-event pipelines
    (guardianAI.py lines 152-182, guardianAI2.py lines 140-170).
-/

namespace Guardian

/-- A JSON value as produced by Python's `json.loads`: booleans, strings,
numbers, null, arrays and objects (objects as association lists; for the
inputs the claims are about no key is duplicated).  Numbers are modelled as
integers — no claim involves fractional numbers. -/
inductive JVal where
  | jbool : Bool → JVal
  | jstr : String → JVal
  | jnum : Int → JVal
  | jnull : JVal
  | jarr : List JVal → JVal
  | jobj : List (String × JVal) → JVal

/-- A raw oracle response body, modelled by its JSON parse: `none` means
`json.loads` raises `JSONDecodeError` on it (non-JSON text), `some v` means
it parses to `v`. -/
abbrev Raw := Option JVal

/-- Python truthiness of a JSON-derived value, as used by
`if name_found:` in `process_name`: `False`/`0`/`""`/`None` and empty
containers are falsy, everything else truthy. -/
def py_truthy : JVal → Bool
  | .jbool b => b
  | .jstr s => !(s == "")
  | .jnum n => !(n == 0)
  | .jnull => false
  | .jarr xs => !xs.isEmpty
  | .jobj fs => !fs.isEmpty

/-- Chain.check_names (guardianAI.py lines 54-60): invokes the LLM chain and
returns the raw response body; if the call raises (transport error, timeout),
the exception is caught and the literal fallback body is returned, whose JSON
parse is the object with the single field name_found = false. -/
def check_names (llm : Except Unit Raw) : Raw :=
  match llm with
  | .ok raw => raw
  | .error _ => some (.jobj [("name_found", .jbool false)])

/-- The one way classification can escape `process_name`: calling `.get` on a
parsed document that is not a dict raises `AttributeError`, which the
surrounding code does not catch. -/
inductive PipeError where
  | attributeError
deriving DecidableEq, Repr

/-- The classification step of `process_name` (guardianAI.py lines 159-164):
`json.loads(raw_response)` followed by `response_json.get("name_found",
False)`.  A `JSONDecodeError` (`raw = none`) is caught and yields
`name_found = False`; a parsed dict yields the value at key `"name_found"`,
defaulting to `False` when the key is absent; a parsed non-dict raises
`AttributeError` at the `.get` call (uncaught). -/
def parse_name_found (raw : Raw) : Except PipeError JVal :=
  match raw with
  | none => .ok (.jbool false)
  | some (.jobj fields) => .ok ((fields.lookup "name_found").getD (.jbool false))
  | some _ => .error .attributeError

/-- End-to-end classification of one oracle call as the pipeline performs it:
`check_names` followed by the parse/lookup step. -/
def classify (llm : Except Unit Raw) : Except PipeError JVal :=
  parse_name_found (check_names llm)

/-- The path separator: both files run on Windows (they import win32security
and message via `msg /server:...`). -/
def sep : String := "\\"

/-- Split a character list at every occurrence of `c`, keeping empty pieces —
the semantics of Python's `str.split` with a one-character separator.  On an
empty input it returns one empty piece, as Python does, so the result is
never the empty list. -/
def splitChar (c : Char) : List Char → List (List Char)
  | [] => [[]]
  | x :: xs =>
    let r := splitChar c xs
    if x == c then [] :: r
    else
      match r with
      | [] => [[x]]
      | h :: t => (x :: h) :: t

/-- Python's `s.split("\\")`, used for the bare username
`owner.split("\\")[-1]`. -/
def py_split_backslash (s : String) : List String :=
  (splitChar '\\' s.data).map String.mk

/-- os.path.basename for the backslash-separated Windows paths this program
handles: the last component after the final separator (drive handling and the
`/` alternate separator play no role in the modelled paths). -/
def os_path_basename (p : String) : String :=
  String.mk ((splitChar '\\' p.data).getLastD p.data)

/-- Whether a path string ends with the separator. -/
def endsWithSep (a : String) : Bool :=
  match a.data.getLast? with
  | some c => c == '\\'
  | none => false

/-- os.path.join for the nonempty directory argument used at the quarantine
move (guardianAI.py line 143). -/
def os_path_join (a b : String) : String :=
  if endsWithSep a then a ++ b else a ++ sep ++ b

/-- ASCII lowering of one character — what Python's `str.lower` does on the
inputs that occur here ("Folder" and "File"). -/
def char_lower (c : Char) : Char :=
  if 'A' ≤ c && c ≤ 'Z' then Char.ofNat (c.toNat + 32) else c

/-- Python's `str.lower` on ASCII strings. -/
def str_lower (s : String) : String :=
  String.mk (s.data.map char_lower)

/-- One entry contained in a folder that `shutil.rmtree` visits: whether its
plain removal raises, and whether the chmod-then-remove fallback performed by
`on_rm_error` also raises. -/
structure FolderEntry where
  removeRaises : Bool
  fixedRemoveRaises : Bool
deriving DecidableEq, Repr

/-- WatcherHandler.on_rm_error (guardianAI.py lines 84-96, guardianAI2.py
lines 84-95): makes the entry writable and removes it again, catching any
exception of its own — it never re-raises.  Returns whether the entry was
actually removed. -/
def on_rm_error (e : FolderEntry) : Bool :=
  !e.fixedRemoveRaises

/-- shutil.rmtree with `onerror=self.on_rm_error` (guardianAI.py line 125):
a per-entry removal failure is reported to the handler instead of being
raised, and `on_rm_error` swallows its own failures, so the recursive delete
always returns normally.  Result: the entries left behind — those whose plain
removal raised and whose `on_rm_error` fallback also failed. -/
def rmtree_leftover (entries : List FolderEntry) : List FolderEntry :=
  entries.filter (fun e => e.removeRaises && !(on_rm_error e))

/-- The filesystem facts one call to delete_path can observe, as an oracle:
whether the path exists at entry, whether it is a folder, for a file whether
`os.remove` raises on the n-th attempt (1-indexed), for a folder the entries
`rmtree` visits, and whether `os.makedirs` / `shutil.move` raise during the
quarantine fallback. -/
structure PathState where
  os_path_exists : Bool
  is_folder : Bool
  removeRaises : Nat → Bool
  entries : List FolderEntry
  makedirsRaises : Bool
  moveRaises : Bool

/-- Whether the n-th deletion attempt raises: a file attempt raises exactly
when `os.remove` does; a folder attempt never raises, because `rmtree` with
the `on_rm_error` handler returns normally (the permission-fixing walk above
it is wrapped in its own try/except and is also never fatal). -/
def attempt_raises (st : PathState) (n : Nat) : Bool :=
  if st.is_folder then false else st.removeRaises n

/-- Whether the path still exists after a deletion attempt that returned
normally: a removed file is gone; a folder still exists exactly when some
contained entry resisted both removal and the `on_rm_error` fallback, so the
top-level `os.rmdir` inside `rmtree` could not empty it. -/
def exists_after_success (st : PathState) : Bool :=
  if st.is_folder then !(rmtree_leftover st.entries).isEmpty else false

/-- The spec's DeletionOutcome final states. -/
inductive FinalState where
  | Deleted
  | Quarantined
  | Failed
deriving DecidableEq, Repr

/-- The spec's DeletionOutcome.  The Python functions return only the bool
(`True`/`False`); `finalState` records which return site produced it:
`return True` after a successful removal is `Deleted`, `return True` after a
successful quarantine move is `Quarantined`, every `return False` is
`Failed`. -/
structure DeletionOutcome where
  success : Bool
  finalState : FinalState
deriving DecidableEq, Repr

/-- One observable effect of delete_path: a deletion attempt (with its
1-indexed attempt number), a `time.sleep(retry_delay)`, the
`os.makedirs(quarantine_dir, exist_ok=True)` call, or the `shutil.move` to
the recorded destination path. -/
inductive DelAction where
  | tryDelete : Nat → DelAction
  | sleep : Nat → DelAction
  | makedirs : DelAction
  | move : String → DelAction
deriving DecidableEq, Repr

/-- Whether an action is a deletion attempt. -/
def isTry : DelAction → Bool
  | .tryDelete _ => true
  | _ => false

/-- Whether an action is a sleep. -/
def isSleep : DelAction → Bool
  | .sleep _ => true
  | _ => false

/-- The `for attempt in range(1, max_retries + 1)` loop of
WatcherHandler.delete_path in guardianAI.py (lines 107-150).  `fuel` is the
number of loop iterations remaining (`max_retries - attempt + 1` at entry);
when the fuel runs out the Python loop falls off the end of the function and
returns `None` (only possible when `max_retries = 0`).  The result is the
returned value, the trace of effects, and whether the path exists when the
function returns. -/
def deleteLoop (st : PathState) (path : String) (qdir : Option String)
    (max_retries retry_delay : Nat) : Nat → Nat →
    Option DeletionOutcome × List DelAction × Bool
  | 0, _ => (none, [], true)
  | fuel + 1, attempt =>
    if attempt_raises st attempt = false then
      (some ⟨true, .Deleted⟩, [.tryDelete attempt], exists_after_success st)
    else if attempt < max_retries then
      let r := deleteLoop st path qdir max_retries retry_delay fuel (attempt + 1)
      (r.1, .tryDelete attempt :: .sleep retry_delay :: r.2.1, r.2.2)
    else
      match qdir with
      | some q =>
        if st.makedirsRaises then
          (some ⟨false, .Failed⟩, [.tryDelete attempt, .makedirs], true)
        else if st.moveRaises then
          (some ⟨false, .Failed⟩,
           [.tryDelete attempt, .makedirs,
            .move (os_path_join q (os_path_basename path))], true)
        else
          (some ⟨true, .Quarantined⟩,
           [.tryDelete attempt, .makedirs,
            .move (os_path_join q (os_path_basename path))], false)
      | none => (some ⟨false, .Failed⟩, [.tryDelete attempt], true)

/-- WatcherHandler.delete_path of guardianAI.py (lines 98-150): early return
when the path does not exist, otherwise the retry loop; `qdir` is the
handler's `self.quarantine_dir`.  The Python defaults are `max_retries = 3`,
`retry_delay = 2`. -/
def delete_path (st : PathState) (path : String) (qdir : Option String)
    (max_retries retry_delay : Nat) :
    Option DeletionOutcome × List DelAction × Bool :=
  if st.os_path_exists = false then (some ⟨false, .Failed⟩, [], false)
  else deleteLoop st path qdir max_retries retry_delay max_retries 1

/-- The retry loop of WatcherHandler.delete_path in guardianAI2.py (lines
106-138): identical to `deleteLoop` except that after the last failed attempt
there is no quarantine branch — it returns `False` directly. -/
def deleteLoop2 (st : PathState) (max_retries retry_delay : Nat) : Nat → Nat →
    Option DeletionOutcome × List DelAction × Bool
  | 0, _ => (none, [], true)
  | fuel + 1, attempt =>
    if attempt_raises st attempt = false then
      (some ⟨true, .Deleted⟩, [.tryDelete attempt], exists_after_success st)
    else if attempt < max_retries then
      let r := deleteLoop2 st max_retries retry_delay fuel (attempt + 1)
      (r.1, .tryDelete attempt :: .sleep retry_delay :: r.2.1, r.2.2)
    else
      (some ⟨false, .Failed⟩, [.tryDelete attempt], true)

/-- WatcherHandler.delete_path of guardianAI2.py (lines 97-138). -/
def delete_path2 (st : PathState) (max_retries retry_delay : Nat) :
    Option DeletionOutcome × List DelAction × Bool :=
  if st.os_path_exists = false then (some ⟨false, .Failed⟩, [], false)
  else deleteLoop2 st max_retries retry_delay max_retries 1

/-- The static user-to-machine mapping of guardianAI.py (lines 63-68), as an
association list; Python dict lookup with distinct literal keys is
association-list lookup. -/
def user_to_machine : List (String × String) :=
  [("APAC\\HEKOLLI", "C185LX082414174"),
   ("APAC\\KHAIRES", "C185LX083361454"),
   ("APAC\\SURESAD", "C185LX091093328"),
   ("APAC\\SONIARN", "C185LX091074664")]

/-- The static user-to-machine mapping of guardianAI2.py (lines 63-69). -/
def user_to_machine2 : List (String × String) :=
  [("APAC\\HEKOLLI", "C185LX082414174"),
   ("APAC\\KHAIRES", "C185LX083361454"),
   ("APAC\\SURESAD", "C185LX091093328"),
   ("APAC\\SONIARN", "C185LX091074664"),
   ("APAC\\SINGSID", "C185LX083361246")]

/-- The notification message built in process_name (guardianAI.py lines
176-177): the two adjacent f-string literals, the first ending in a newline.
The apostrophes around the name are written as \x27 escapes. -/
def violationMessage (typLower name : String) : String :=
  ("The " ++ typLower ++ " name \x27" ++ name ++
    "\x27 contains a personal name and violates naming guidelines.\n") ++
  "It has been removed. Please rename it according to the policy."

/-- The second literal of the notification message: the unconditional removal
sentence. -/
def removedSentence : String :=
  "It has been removed. Please rename it according to the policy."

/-- One call to send_msg_to_user: the `msg /server:<machine>` target, the
bare username (`owner.split("\\")[-1]`), and the message body. -/
structure Msg where
  client_machine : String
  username : String
  message : String
deriving DecidableEq, Repr

/-- The externally observable effects of one process_name run:
the branch taken on `name_found`, the delete_path call (result, trace and
final existence) when one was made, the send_msg_to_user call when one was
made, and whether the no-mapping warning was logged. -/
structure PipelineEffects where
  name_found : Bool
  delete_call : Option (Option DeletionOutcome × List DelAction × Bool)
  notification : Option Msg
  no_mapping_warning : Bool
deriving DecidableEq, Repr

/-- WatcherHandler.process_name of guardianAI.py (lines 152-182).  `owner` is
the result of the external `get_owner` query, `llm` the outcome of the
external LLM call, `st` the filesystem behaviour the delete engine will
observe, `qdir` the handler's `self.quarantine_dir`.  The `delete_path`
return value is computed and discarded (stored only as an effect); the
notification is built from the owner mapping alone. -/
def process_name (qdir : Option String) (st : PathState) (path : String)
    (is_folder : Bool) (owner : String) (llm : Except Unit Raw) :
    Except PipeError PipelineEffects :=
  let name := os_path_basename path
  let typ := if is_folder then "Folder" else "File"
  match classify llm with
  | .error e => .error e
  | .ok nf =>
    if py_truthy nf then
      let del := delete_path st path qdir 3 2
      match user_to_machine.lookup owner with
      | some client_machine =>
        let username_only := (py_split_backslash owner).getLastD owner
        let message := violationMessage (str_lower typ) name
        .ok ⟨true, some del, some ⟨client_machine, username_only, message⟩, false⟩
      | none => .ok ⟨true, some del, none, true⟩
    else
      .ok ⟨false, none, none, false⟩

/-- WatcherHandler.process_name of guardianAI2.py (lines 140-170): same
pipeline with the quarantine-free delete engine and the five-entry
mapping. -/
def process_name2 (st : PathState) (path : String)
    (is_folder : Bool) (owner : String) (llm : Except Unit Raw) :
    Except PipeError PipelineEffects :=
  let name := os_path_basename path
  let typ := if is_folder then "Folder" else "File"
  match classify llm with
  | .error e => .error e
  | .ok nf =>
    if py_truthy nf then
      let del := delete_path2 st 3 2
      match user_to_machine2.lookup owner with
      | some client_machine =>
        let username_only := (py_split_backslash owner).getLastD owner
        let message := violationMessage (str_lower typ) name
        .ok ⟨true, some del, some ⟨client_machine, username_only, message⟩, false⟩
      | none => .ok ⟨true, some del, none, true⟩
    else
      .ok ⟨false, none, none, false⟩

/-- The notification produced by a pipeline run (none when the run raised or
sent nothing). -/
def notificationOf : Except PipeError PipelineEffects → Option Msg
  | .ok eff => eff.notification
  | .error _ => none

/-- The action sequence of `n` consecutive failing attempts starting at
attempt number `a`: attempt `a`, sleep `d`, attempt `a+1`, sleep `d`, ...,
attempt `a+n-1` — a sleep of `d` after every failed attempt except the
last. -/
def retrySeq (d : Nat) : Nat → Nat → List DelAction
  | _, 0 => []
  | a, 1 => [.tryDelete a]
  | a, n + 2 => .tryDelete a :: .sleep d :: retrySeq d (a + 1) (n + 1)

/-- The actions of the quarantine fallback after the last failed attempt:
nothing when no quarantine directory is configured; otherwise the makedirs
call, followed by the move (to the quarantine directory joined with the
path's base name) unless makedirs raised. -/
def quarTail (st : PathState) (path : String) : Option String → List DelAction
  | none => []
  | some q =>
    if st.makedirsRaises then [.makedirs]
    else [.makedirs, .move (os_path_join q (os_path_basename path))]

/-- The outcome of delete_path when every attempt fails: Failed without a
quarantine directory; with one, Quarantined when both makedirs and the move
succeed and Failed otherwise. -/
def allFailOutcome (st : PathState) : Option String → DeletionOutcome
  | none => ⟨false, .Failed⟩
  | some _ =>
    if st.makedirsRaises || st.moveRaises then ⟨false, .Failed⟩
    else ⟨true, .Quarantined⟩

/-- Whether the path still exists after delete_path when every attempt fails:
yes without a quarantine directory; with one, only when the fallback itself
failed. -/
def allFailExists (st : PathState) : Option String → Bool
  | none => true
  | some _ => st.makedirsRaises || st.moveRaises

theorem deleteLoop_fail_step (st : PathState) (path : String) (qdir : Option String)
    (mr d fuel a : Nat) (hf : attempt_raises st a = true) (hlt : a < mr) :
    deleteLoop st path qdir mr d (fuel + 1) a =
      ((deleteLoop st path qdir mr d fuel (a + 1)).1,
       .tryDelete a :: .sleep d :: (deleteLoop st path qdir mr d fuel (a + 1)).2.1,
       (deleteLoop st path qdir mr d fuel (a + 1)).2.2) := by
  simp only [deleteLoop]
  simp [hf, hlt]

theorem deleteLoop2_fail_step (st : PathState) (mr d fuel a : Nat)
    (hf : attempt_raises st a = true) (hlt : a < mr) :
    deleteLoop2 st mr d (fuel + 1) a =
      ((deleteLoop2 st mr d fuel (a + 1)).1,
       .tryDelete a :: .sleep d :: (deleteLoop2 st mr d fuel (a + 1)).2.1,
       (deleteLoop2 st mr d fuel (a + 1)).2.2) := by
  simp only [deleteLoop2]
  simp [hf, hlt]

theorem deleteLoop_allFail (st : PathState) (path : String) (qdir : Option String)
    (mr d : Nat) (hfail : ∀ n, attempt_raises st n = true) :
    ∀ fuel a, 1 ≤ fuel → a + fuel = mr + 1 →
      deleteLoop st path qdir mr d fuel a =
        (some (allFailOutcome st qdir), retrySeq d a fuel ++ quarTail st path qdir,
         allFailExists st qdir) := by
  intro fuel
  induction fuel with
  | zero => intro a h1 _; omega
  | succ f ih =>
    intro a _ hinv
    cases f with
    | zero =>
      have ha : a = mr := by omega
      subst ha
      simp only [deleteLoop, hfail a, Bool.true_eq_false, if_false, Nat.lt_irrefl]
      cases qdir with
      | none => simp [retrySeq, quarTail, allFailOutcome, allFailExists]
      | some q =>
        by_cases hmk : st.makedirsRaises = true
        · simp [retrySeq, quarTail, allFailOutcome, allFailExists, hmk]
        · have hmk' : st.makedirsRaises = false := by
            revert hmk; cases st.makedirsRaises <;> simp
          by_cases hmv : st.moveRaises = true
          · simp [retrySeq, quarTail, allFailOutcome, allFailExists, hmk', hmv]
          · have hmv' : st.moveRaises = false := by
              revert hmv; cases st.moveRaises <;> simp
            simp [retrySeq, quarTail, allFailOutcome, allFailExists, hmk', hmv']
    | succ f' =>
      have hlt : a < mr := by omega
      have hrec := ih (a + 1) (by omega) (by omega)
      rw [deleteLoop_fail_step st path qdir mr d (f' + 1) a (hfail a) hlt, hrec]
      simp [retrySeq]

theorem deleteLoop2_allFail (st : PathState) (mr d : Nat)
    (hfail : ∀ n, attempt_raises st n = true) :
    ∀ fuel a, 1 ≤ fuel → a + fuel = mr + 1 →
      deleteLoop2 st mr d fuel a =
        (some ⟨false, .Failed⟩, retrySeq d a fuel, true) := by
  intro fuel
  induction fuel with
  | zero => intro a h1 _; omega
  | succ f ih =>
    intro a _ hinv
    cases f with
    | zero =>
      have ha : a = mr := by omega
      subst ha
      simp [deleteLoop2, hfail a, Nat.lt_irrefl, retrySeq]
    | succ f' =>
      have hlt : a < mr := by omega
      have hrec := ih (a + 1) (by omega) (by omega)
      rw [deleteLoop2_fail_step st mr d (f' + 1) a (hfail a) hlt, hrec]
      simp [retrySeq]

theorem delete_path_allFail (st : PathState) (path : String) (qdir : Option String)
    (mr d : Nat) (hex : st.os_path_exists = true)
    (hfail : ∀ n, attempt_raises st n = true) (hmr : 1 ≤ mr) :
    delete_path st path qdir mr d =
      (some (allFailOutcome st qdir), retrySeq d 1 mr ++ quarTail st path qdir,
       allFailExists st qdir) := by
  simp only [delete_path, hex, Bool.true_eq_false, if_false]
  exact deleteLoop_allFail st path qdir mr d hfail mr 1 hmr (by omega)

theorem delete_path2_allFail (st : PathState) (mr d : Nat)
    (hex : st.os_path_exists = true)
    (hfail : ∀ n, attempt_raises st n = true) (hmr : 1 ≤ mr) :
    delete_path2 st mr d = (some ⟨false, .Failed⟩, retrySeq d 1 mr, true) := by
  simp only [delete_path2, hex, Bool.true_eq_false, if_false]
  exact deleteLoop2_allFail st mr d hfail mr 1 hmr (by omega)

theorem retrySeq_countP_try (d : Nat) : ∀ n a, (retrySeq d a n).countP isTry = n := by
  intro n
  induction n with
  | zero => intro a; rfl
  | succ m ih =>
    intro a
    cases m with
    | zero => simp [retrySeq, List.countP_cons, isTry]
    | succ m' =>
      simp [retrySeq, List.countP_cons, isTry, ih (a + 1)]

theorem retrySeq_countP_sleep (d : Nat) :
    ∀ n a, (retrySeq d a n).countP isSleep = n - 1 := by
  intro n
  induction n with
  | zero => intro a; rfl
  | succ m ih =>
    intro a
    cases m with
    | zero => simp [retrySeq, List.countP_cons, isSleep]
    | succ m' =>
      simp [retrySeq, List.countP_cons, isSleep, ih (a + 1)]

theorem retrySeq_sleep_delay (d : Nat) :
    ∀ n a x, x ∈ retrySeq d a n → isSleep x = true → x = .sleep d := by
  intro n
  induction n with
  | zero => intro a x hx; simp [retrySeq] at hx
  | succ m ih =>
    intro a x hx hs
    cases m with
    | zero =>
      simp [retrySeq] at hx
      subst hx; simp [isSleep] at hs
    | succ m' =>
      simp only [retrySeq, List.mem_cons] at hx
      rcases hx with h | h | h
      · subst h; simp [isSleep] at hs
      · subst h; rfl
      · exact ih (a + 1) x h hs

theorem quarTail_countP_try (st : PathState) (path : String) (qdir : Option String) :
    (quarTail st path qdir).countP isTry = 0 := by
  cases qdir with
  | none => rfl
  | some q =>
    by_cases hmk : st.makedirsRaises = true
    · simp [quarTail, hmk, List.countP_cons, isTry]
    · simp [quarTail, hmk, List.countP_cons, isTry]

theorem quarTail_countP_sleep (st : PathState) (path : String) (qdir : Option String) :
    (quarTail st path qdir).countP isSleep = 0 := by
  cases qdir with
  | none => rfl
  | some q =>
    by_cases hmk : st.makedirsRaises = true
    · simp [quarTail, hmk, List.countP_cons, isSleep]
    · simp [quarTail, hmk, List.countP_cons, isSleep]

theorem quarTail_no_sleep (st : PathState) (path : String) (qdir : Option String) :
    ∀ x ∈ quarTail st path qdir, isSleep x = false := by
  cases qdir with
  | none => intro x hx; simp [quarTail] at hx
  | some q =>
    intro x hx
    by_cases hmk : st.makedirsRaises = true
    · simp [quarTail, hmk] at hx
      subst hx; rfl
    · simp [quarTail, hmk] at hx
      rcases hx with h | h <;> (subst h; rfl)

theorem deleteLoop_agree (st : PathState) (path : String) (qdir : Option String)
    (mr d : Nat) :
    ∀ fuel a, a + fuel = mr + 1 →
      (∃ k, k < fuel ∧ attempt_raises st (a + k) = false) →
      deleteLoop st path qdir mr d fuel a = deleteLoop2 st mr d fuel a := by
  intro fuel
  induction fuel with
  | zero =>
    intro a _ hex
    obtain ⟨k, hk, _⟩ := hex
    omega
  | succ f ih =>
    intro a hinv hex
    obtain ⟨k, hk, hsucc⟩ := hex
    by_cases h1 : attempt_raises st a = false
    · simp only [deleteLoop, deleteLoop2, h1, if_true]
    · have h1' : attempt_raises st a = true := by
        revert h1; cases attempt_raises st a <;> simp
      have hk0 : k ≠ 0 := by
        intro hk0
        subst hk0
        simp only [Nat.add_zero] at hsucc
        exact h1 hsucc
      have hf : 1 ≤ f := by
        cases f with
        | zero => omega
        | succ _ => omega
      have hlt : a < mr := by omega
      have hrec := ih (a + 1) (by omega)
        ⟨k - 1, by omega, by
          have hab : a + 1 + (k - 1) = a + k := by omega
          rw [hab]; exact hsucc⟩
      rw [deleteLoop_fail_step st path qdir mr d f a h1' hlt,
          deleteLoop2_fail_step st mr d f a h1' hlt, hrec]

theorem delete_path_agree (st : PathState) (path : String) (qdir : Option String)
    (mr d : Nat)
    (h : st.os_path_exists = false ∨ ∃ a, 1 ≤ a ∧ a ≤ mr ∧ attempt_raises st a = false) :
    delete_path st path qdir mr d = delete_path2 st mr d := by
  by_cases hp : st.os_path_exists = false
  · simp [delete_path, delete_path2, hp]
  · have hp' : st.os_path_exists = true := by
      revert hp; cases st.os_path_exists <;> simp
    rcases h with h | h
    · rw [hp'] at h; cases h
    · obtain ⟨a, h1, h2, h3⟩ := h
      simp only [delete_path, delete_path2, hp', Bool.true_eq_false, if_false]
      exact deleteLoop_agree st path qdir mr d mr 1 (by omega)
        ⟨a - 1, by omega, by
          have hab : 1 + (a - 1) = a := by omega
          rw [hab]; exact h3⟩

theorem lookup_append_left (l1 l2 : List (String × String)) (k : String)
    (h : (l1.lookup k).isSome = true) : (l1 ++ l2).lookup k = l1.lookup k := by
  induction l1 with
  | nil => simp [List.lookup] at h
  | cons p t ih =>
    by_cases hk : (k == p.1) = true
    · simp [List.lookup, hk]
    · have hk' : (k == p.1) = false := by
        revert hk; cases k == p.1 <;> simp
      simp only [List.lookup, hk'] at h ⊢
      exact ih h

/-- A file that exists and whose `os.remove` raises on every attempt; the
quarantine fallback succeeds when tried. -/
def stAllFailFile : PathState := ⟨true, false, fun _ => true, [], false, false⟩

/-- A file that exists, resists every `os.remove`, and whose `shutil.move` to
quarantine also raises. -/
def stMoveFails : PathState := ⟨true, false, fun _ => true, [], false, true⟩

/-- A file that exists and is removed on the first attempt. -/
def stFirstTry : PathState := ⟨true, false, fun _ => false, [], false, false⟩

/-- A path that does not exist when delete_path is called. -/
def stMissing : PathState := ⟨false, false, fun _ => false, [], false, false⟩

/-- A folder that exists and contains one entry whose removal fails and whose
`on_rm_error` fallback also fails. -/
def stStubbornFolder : PathState := ⟨true, true, fun _ => true, [⟨true, true⟩], false, false⟩

/-- An oracle outcome delivering the well-formed body whose parse is the
object with name_found = true. -/
def llmFoundTrue : Except Unit Raw := .ok (some (.jobj [("name_found", .jbool true)]))

/-- C1: for every existing path whose removal fails on every attempt,
delete_path performs exactly `max_retries` deletion attempts (numbered
1..max_retries) before falling back to quarantine or returning failure, and
sleeps `retry_delay` after each failed attempt except the last: the trace is
`retrySeq retry_delay 1 max_retries` — attempt 1, sleep, attempt 2, …,
attempt max_retries, with a sleep strictly between consecutive attempts —
followed only by the quarantine-fallback actions; the attempt count is
max_retries, the sleep count max_retries - 1, and every sleep has duration
`retry_delay`.  Both files' engines (defaults max_retries = 3,
retry_delay = 2) behave so. -/
theorem C1_retry_schedule (st : PathState) (path : String) (qdir : Option String)
    (mr d : Nat) (hex : st.os_path_exists = true)
    (hfail : ∀ n, attempt_raises st n = true) (hmr : 1 ≤ mr) :
    delete_path st path qdir mr d =
      (some (allFailOutcome st qdir), retrySeq d 1 mr ++ quarTail st path qdir,
       allFailExists st qdir)
    ∧ (delete_path st path qdir mr d).2.1.countP isTry = mr
    ∧ (delete_path st path qdir mr d).2.1.countP isSleep = mr - 1
    ∧ (∀ x ∈ (delete_path st path qdir mr d).2.1, isSleep x = true → x = .sleep d)
    ∧ delete_path2 st mr d = (some ⟨false, .Failed⟩, retrySeq d 1 mr, true)
    ∧ (delete_path2 st mr d).2.1.countP isTry = mr
    ∧ (delete_path2 st mr d).2.1.countP isSleep = mr - 1 := by
  have h1 := delete_path_allFail st path qdir mr d hex hfail hmr
  have h2 := delete_path2_allFail st mr d hex hfail hmr
  refine ⟨h1, ?_, ?_, ?_, h2, ?_, ?_⟩
  · rw [h1]
    simp [List.countP_append, retrySeq_countP_try, quarTail_countP_try]
  · rw [h1]
    simp [List.countP_append, retrySeq_countP_sleep, quarTail_countP_sleep]
  · rw [h1]
    intro x hx hs
    simp only [List.mem_append] at hx
    rcases hx with h | h
    · exact retrySeq_sleep_delay d mr 1 x h hs
    · rw [quarTail_no_sleep st path qdir x h] at hs
      cases hs
  · rw [h2]
    simp [retrySeq_countP_try]
  · rw [h2]
    simp [retrySeq_countP_sleep]

theorem C1_retry_schedule_witness :
    stAllFailFile.os_path_exists = true
    ∧ delete_path stAllFailFile "C:\\w\\Rahul.txt" none 3 2 =
        (some ⟨false, .Failed⟩,
         [.tryDelete 1, .sleep 2, .tryDelete 2, .sleep 2, .tryDelete 3], true) :=
  ⟨rfl,
   (C1_retry_schedule stAllFailFile "C:\\w\\Rahul.txt" none 3 2 rfl
      (fun _ => rfl) (by omega)).1⟩

/-- C2: when a quarantine directory is configured and all attempts fail,
delete_path creates the quarantine directory (the makedirs action), moves the
entry to the quarantine directory joined with its original base name (the
move action, after which the path no longer exists — the final existence bit
is false), and returns success with final state Quarantined; if the move
itself raises, it returns failure (Failed), and likewise if makedirs
raises. -/
theorem C2_quarantine_fallback (st : PathState) (path q : String) (mr d : Nat)
    (hex : st.os_path_exists = true) (hfail : ∀ n, attempt_raises st n = true)
    (hmr : 1 ≤ mr) :
    (st.makedirsRaises = false → st.moveRaises = false →
      delete_path st path (some q) mr d =
        (some ⟨true, .Quarantined⟩,
         retrySeq d 1 mr ++
           [.makedirs, .move (os_path_join q (os_path_basename path))],
         false))
    ∧ (st.moveRaises = true →
        (delete_path st path (some q) mr d).1 = some ⟨false, .Failed⟩)
    ∧ (st.makedirsRaises = true →
        (delete_path st path (some q) mr d).1 = some ⟨false, .Failed⟩) := by
  have h1 := delete_path_allFail st path (some q) mr d hex hfail hmr
  refine ⟨?_, ?_, ?_⟩
  · intro hmk hmv
    rw [h1]
    simp [allFailOutcome, allFailExists, quarTail, hmk, hmv]
  · intro hmv
    rw [h1]
    simp [allFailOutcome, hmv]
  · intro hmk
    rw [h1]
    simp [allFailOutcome, hmk]

theorem C2_quarantine_fallback_witness :
    delete_path stAllFailFile "C:\\w\\Rahul.txt" (some "Q") 3 2 =
      (some ⟨true, .Quarantined⟩,
       [.tryDelete 1, .sleep 2, .tryDelete 2, .sleep 2, .tryDelete 3,
        .makedirs, .move "Q\\Rahul.txt"], false)
    ∧ (delete_path stMoveFails "C:\\w\\Rahul.txt" (some "Q") 3 2).1 =
        some ⟨false, .Failed⟩ :=
  ⟨(C2_quarantine_fallback stAllFailFile "C:\\w\\Rahul.txt" "Q" 3 2 rfl
      (fun _ => rfl) (by omega)).1 rfl rfl,
   (C2_quarantine_fallback stMoveFails "C:\\w\\Rahul.txt" "Q" 3 2 rfl
      (fun _ => rfl) (by omega)).2.1 rfl⟩

/-- C5: for every path that does not exist when delete_path is called, both
engines return the failure outcome at once: the returned value is
success = false with final state Failed, the effect trace is empty (no
deletion attempt, no sleep, no quarantine action), and the call returns a
value rather than raising. -/
theorem C5_nonexistent (st : PathState) (path : String) (qdir : Option String)
    (mr d : Nat) (h : st.os_path_exists = false) :
    delete_path st path qdir mr d = (some ⟨false, .Failed⟩, [], false)
    ∧ delete_path2 st mr d = (some ⟨false, .Failed⟩, [], false) := by
  constructor
  · simp [delete_path, h]
  · simp [delete_path2, h]

theorem C5_nonexistent_witness :
    delete_path stMissing "C:\\w\\gone.txt" (some "Q") 3 2 =
      (some ⟨false, .Failed⟩, [], false)
    ∧ delete_path2 stMissing 3 2 = (some ⟨false, .Failed⟩, [], false) :=
  C5_nonexistent stMissing "C:\\w\\gone.txt" (some "Q") 3 2 rfl

/-- C6: for every existing path, when no quarantine directory is configured
and all attempts fail, the original path still exists after delete_path
returns (final existence bit true), and the call reports failure; the same
holds for guardianAI2's engine, which never has a quarantine directory. -/
theorem C6_survives_without_quarantine (st : PathState) (path : String)
    (mr d : Nat) (hex : st.os_path_exists = true)
    (hfail : ∀ n, attempt_raises st n = true) (hmr : 1 ≤ mr) :
    (delete_path st path none mr d).2.2 = true
    ∧ (delete_path st path none mr d).1 = some ⟨false, .Failed⟩
    ∧ (delete_path2 st mr d).2.2 = true
    ∧ (delete_path2 st mr d).1 = some ⟨false, .Failed⟩ := by
  have h1 := delete_path_allFail st path none mr d hex hfail hmr
  have h2 := delete_path2_allFail st mr d hex hfail hmr
  rw [h1, h2]
  exact ⟨rfl, rfl, rfl, rfl⟩

theorem C6_survives_without_quarantine_witness :
    (delete_path stAllFailFile "C:\\w\\x.txt" none 3 2).2.2 = true
    ∧ (delete_path stAllFailFile "C:\\w\\x.txt" none 3 2).1 = some ⟨false, .Failed⟩
    ∧ (delete_path2 stAllFailFile 3 2).2.2 = true
    ∧ (delete_path2 stAllFailFile 3 2).1 = some ⟨false, .Failed⟩ :=
  C6_survives_without_quarantine stAllFailFile "C:\\w\\x.txt" 3 2 rfl
    (fun _ => rfl) (by omega)

/-- C9: for a folder, a per-entry removal failure inside the recursive delete
is swallowed by on_rm_error, so the rmtree attempt returns normally and is
counted a success: delete_path returns the success outcome (Deleted) with a
trace of exactly one attempt — no sleep, no further attempt, no quarantine
action — even when some contained entry resisted both removal and the
fallback, in which case the folder itself is left in place (final existence
bit true).  Both files behave so. -/
theorem C9_folder_first_attempt (st : PathState) (path : String)
    (qdir : Option String) (mr d : Nat) (hex : st.os_path_exists = true)
    (hfold : st.is_folder = true) (hmr : 1 ≤ mr)
    (e : FolderEntry) (he : e ∈ st.entries)
    (he1 : e.removeRaises = true) (he2 : e.fixedRemoveRaises = true) :
    delete_path st path qdir mr d =
      (some ⟨true, .Deleted⟩, [.tryDelete 1], exists_after_success st)
    ∧ exists_after_success st = true
    ∧ delete_path2 st mr d =
      (some ⟨true, .Deleted⟩, [.tryDelete 1], exists_after_success st) := by
  have hattempt : attempt_raises st 1 = false := by
    simp [attempt_raises, hfold]
  have hleft : e ∈ rmtree_leftover st.entries := by
    refine List.mem_filter.mpr ⟨he, ?_⟩
    simp [on_rm_error, he1, he2]
  have hexists : exists_after_success st = true := by
    simp only [exists_after_success, hfold, if_true]
    cases hemp : (rmtree_leftover st.entries).isEmpty with
    | false => rfl
    | true =>
      rw [List.isEmpty_iff] at hemp
      rw [hemp] at hleft
      cases hleft
  obtain ⟨m, rfl⟩ : ∃ m, mr = m + 1 := ⟨mr - 1, by omega⟩
  refine ⟨?_, hexists, ?_⟩
  · simp only [delete_path, hex, Bool.true_eq_false, if_false]
    simp [deleteLoop, hattempt]
  · simp only [delete_path2, hex, Bool.true_eq_false, if_false]
    simp [deleteLoop2, hattempt]

theorem C9_folder_first_attempt_witness :
    delete_path stStubbornFolder "C:\\w\\RahulDir" (some "Q") 3 2 =
      (some ⟨true, .Deleted⟩, [.tryDelete 1], true)
    ∧ delete_path2 stStubbornFolder 3 2 =
      (some ⟨true, .Deleted⟩, [.tryDelete 1], true) := by
  have h := C9_folder_first_attempt stStubbornFolder "C:\\w\\RahulDir" (some "Q")
    3 2 rfl rfl (by omega) ⟨true, true⟩ (by decide) rfl rfl
  exact ⟨h.1, h.2.2⟩

theorem process_name_shape (qdir : Option String) (st : PathState) (path : String)
    (isf : Bool) (owner : String) (llm : Except Unit Raw) (nf : JVal)
    (h : classify llm = .ok nf) :
    process_name qdir st path isf owner llm =
      if py_truthy nf then
        match user_to_machine.lookup owner with
        | some cm =>
          .ok ⟨true, some (delete_path st path qdir 3 2),
               some ⟨cm, (py_split_backslash owner).getLastD owner,
                     violationMessage (str_lower (if isf then "Folder" else "File"))
                       (os_path_basename path)⟩, false⟩
        | none => .ok ⟨true, some (delete_path st path qdir 3 2), none, true⟩
      else .ok ⟨false, none, none, false⟩ := by
  simp only [process_name, h]

theorem process_name2_shape (st : PathState) (path : String)
    (isf : Bool) (owner : String) (llm : Except Unit Raw) (nf : JVal)
    (h : classify llm = .ok nf) :
    process_name2 st path isf owner llm =
      if py_truthy nf then
        match user_to_machine2.lookup owner with
        | some cm =>
          .ok ⟨true, some (delete_path2 st 3 2),
               some ⟨cm, (py_split_backslash owner).getLastD owner,
                     violationMessage (str_lower (if isf then "Folder" else "File"))
                       (os_path_basename path)⟩, false⟩
        | none => .ok ⟨true, some (delete_path2 st 3 2), none, true⟩
      else .ok ⟨false, none, none, false⟩ := by
  simp only [process_name2, h]

/-- C3: in every pipeline run whose classification step yields a verdict,
notification is attempted exactly when the verdict is truthy and the resolved
owner has an entry in the machine mapping; with a truthy verdict but no
mapping, the run ends with the no-mapping warning and no notification (the
deletion still having been invoked); and the notification sent does not
depend on the deletion inputs (quarantine configuration or filesystem
behaviour) at all.  Both files' pipelines behave so, each against its own
mapping. -/
theorem C3_notification_iff (qdir : Option String) (st : PathState)
    (path : String) (isf : Bool) (owner : String) (llm : Except Unit Raw)
    (nf : JVal) (h : classify llm = .ok nf) :
    ((notificationOf (process_name qdir st path isf owner llm)).isSome = true ↔
      (py_truthy nf = true ∧ (user_to_machine.lookup owner).isSome = true))
    ∧ (py_truthy nf = true → user_to_machine.lookup owner = none →
        process_name qdir st path isf owner llm =
          .ok ⟨true, some (delete_path st path qdir 3 2), none, true⟩)
    ∧ (∀ qdir2 st2,
        notificationOf (process_name qdir2 st2 path isf owner llm) =
        notificationOf (process_name qdir st path isf owner llm))
    ∧ ((notificationOf (process_name2 st path isf owner llm)).isSome = true ↔
      (py_truthy nf = true ∧ (user_to_machine2.lookup owner).isSome = true))
    ∧ (py_truthy nf = true → user_to_machine2.lookup owner = none →
        process_name2 st path isf owner llm =
          .ok ⟨true, some (delete_path2 st 3 2), none, true⟩)
    ∧ (∀ st2,
        notificationOf (process_name2 st2 path isf owner llm) =
        notificationOf (process_name2 st path isf owner llm)) := by
  refine ⟨?_, ?_, ?_, ?_, ?_, ?_⟩
  · rw [process_name_shape qdir st path isf owner llm nf h]
    by_cases ht : py_truthy nf = true
    · cases hlk : user_to_machine.lookup owner with
      | none => simp [ht, hlk, notificationOf]
      | some cm => simp [ht, hlk, notificationOf]
    · have ht' : py_truthy nf = false := by
        revert ht; cases py_truthy nf <;> simp
      simp [ht', notificationOf]
  · intro ht hlk
    rw [process_name_shape qdir st path isf owner llm nf h]
    simp [ht, hlk]
  · intro qdir2 st2
    rw [process_name_shape qdir st path isf owner llm nf h,
        process_name_shape qdir2 st2 path isf owner llm nf h]
    by_cases ht : py_truthy nf = true
    · cases hlk : user_to_machine.lookup owner with
      | none => simp [ht, hlk, notificationOf]
      | some cm => simp [ht, hlk, notificationOf]
    · have ht' : py_truthy nf = false := by
        revert ht; cases py_truthy nf <;> simp
      simp [ht', notificationOf]
  · rw [process_name2_shape st path isf owner llm nf h]
    by_cases ht : py_truthy nf = true
    · cases hlk : user_to_machine2.lookup owner with
      | none => simp [ht, hlk, notificationOf]
      | some cm => simp [ht, hlk, notificationOf]
    · have ht' : py_truthy nf = false := by
        revert ht; cases py_truthy nf <;> simp
      simp [ht', notificationOf]
  · intro ht hlk
    rw [process_name2_shape st path isf owner llm nf h]
    simp [ht, hlk]
  · intro st2
    rw [process_name2_shape st path isf owner llm nf h,
        process_name2_shape st2 path isf owner llm nf h]
    by_cases ht : py_truthy nf = true
    · cases hlk : user_to_machine2.lookup owner with
      | none => simp [ht, hlk, notificationOf]
      | some cm => simp [ht, hlk, notificationOf]
    · have ht' : py_truthy nf = false := by
        revert ht; cases py_truthy nf <;> simp
      simp [ht', notificationOf]

theorem C3_notification_iff_witness :
    (notificationOf (process_name (some "Q") stAllFailFile "C:\\w\\Rahul.txt"
        false "APAC\\HEKOLLI" llmFoundTrue)).isSome = true
    ∧ process_name (some "Q") stAllFailFile "C:\\w\\Rahul.txt" false
        "APAC\\NOBODY" llmFoundTrue =
      .ok ⟨true,
           some (delete_path stAllFailFile "C:\\w\\Rahul.txt" (some "Q") 3 2),
           none, true⟩ :=
  ⟨((C3_notification_iff (some "Q") stAllFailFile "C:\\w\\Rahul.txt" false
      "APAC\\HEKOLLI" llmFoundTrue (.jbool true) rfl).1).mpr ⟨rfl, rfl⟩,
   (C3_notification_iff (some "Q") stAllFailFile "C:\\w\\Rahul.txt" false
      "APAC\\NOBODY" llmFoundTrue (.jbool true) rfl).2.1 rfl rfl⟩

/-- C4: every malformed oracle response yields the verdict false and a normal
return: a non-JSON body (parse failure) is caught and classified false; a
JSON object without the name_found key defaults to false; a transport error
or timeout is caught inside check_names and its fallback body classifies
false.  In each case classification returns a value (never an error), and the
resulting verdict is falsy, so the pipeline takes the no-violation branch. -/
theorem C4_fail_open :
    classify (.ok none) = .ok (.jbool false)
    ∧ (∀ fields : List (String × JVal), fields.lookup "name_found" = none →
        classify (.ok (some (.jobj fields))) = .ok (.jbool false))
    ∧ classify (.error ()) = .ok (.jbool false)
    ∧ py_truthy (.jbool false) = false := by
  refine ⟨rfl, ?_, rfl, rfl⟩
  intro fields hf
  simp [classify, check_names, parse_name_found, hf]

theorem C4_fail_open_witness :
    classify (.ok none) = .ok (.jbool false)
    ∧ classify (.ok (some (.jobj [("other_key", .jnull)]))) = .ok (.jbool false)
    ∧ classify (.error ()) = .ok (.jbool false) :=
  ⟨C4_fail_open.1, C4_fail_open.2.1 [("other_key", .jnull)] rfl,
   C4_fail_open.2.2.1⟩

/-- C7: a well-formed oracle response whose parse is the object with
name_found = true (resp. false) classifies to exactly that boolean, and the
pipeline branches on exactly that boolean (its Python truthiness is
itself). -/
theorem C7_exact_verdict (b : Bool) :
    classify (.ok (some (.jobj [("name_found", .jbool b)]))) = .ok (.jbool b)
    ∧ py_truthy (.jbool b) = b :=
  ⟨rfl, rfl⟩

/-- C10: for every violating event whose owner is mapped, the notification
message is the fixed template whose second sentence states the entry has been
removed, for every filesystem behaviour `st` and quarantine configuration —
the delete_path return value is discarded, so the same removal message is
sent even when deletion (and quarantine) failed and the entry still exists.
The same holds for guardianAI2's pipeline. -/
theorem C10_unconditional_removal_message (qdir : Option String)
    (st : PathState) (path : String) (isf : Bool) (owner : String)
    (llm : Except Unit Raw) (nf : JVal) (machine : String)
    (h : classify llm = .ok nf) (ht : py_truthy nf = true)
    (hm : user_to_machine.lookup owner = some machine) :
    process_name qdir st path isf owner llm =
      .ok ⟨true, some (delete_path st path qdir 3 2),
           some ⟨machine, (py_split_backslash owner).getLastD owner,
                 violationMessage (str_lower (if isf then "Folder" else "File"))
                   (os_path_basename path)⟩, false⟩
    ∧ (∃ s1, violationMessage (str_lower (if isf then "Folder" else "File"))
          (os_path_basename path) = s1 ++ removedSentence)
    ∧ (∀ machine2, user_to_machine2.lookup owner = some machine2 →
        process_name2 st path isf owner llm =
          .ok ⟨true, some (delete_path2 st 3 2),
               some ⟨machine2, (py_split_backslash owner).getLastD owner,
                     violationMessage (str_lower (if isf then "Folder" else "File"))
                       (os_path_basename path)⟩, false⟩) := by
  refine ⟨?_, ⟨_, rfl⟩, ?_⟩
  · rw [process_name_shape qdir st path isf owner llm nf h]
    simp [ht, hm]
  · intro machine2 hm2
    rw [process_name2_shape st path isf owner llm nf h]
    simp [ht, hm2]

theorem C10_unconditional_removal_message_witness :
    process_name (some "Q") stMoveFails "C:\\w\\Rahul.txt" false
      "APAC\\HEKOLLI" llmFoundTrue =
      .ok ⟨true,
           some (delete_path stMoveFails "C:\\w\\Rahul.txt" (some "Q") 3 2),
           some ⟨"C185LX082414174", "HEKOLLI",
                 violationMessage "file" "Rahul.txt"⟩, false⟩ :=
  (C10_unconditional_removal_message (some "Q") stMoveFails "C:\\w\\Rahul.txt"
    false "APAC\\HEKOLLI" llmFoundTrue (.jbool true) "C185LX082414174"
    rfl rfl rfl).1

/-- C8: guardianAI2's static mapping is exactly guardianAI's with one entry
appended; on every input whose classification yields a verdict, whose owner
is in guardianAI's mapping (hence in both), and on which the quarantine
fallback is not reached (clean verdict, missing path, or some of the three
attempts succeeding), the two per-event pipelines produce identical results;
and guardianAI2's engine always hard-fails after exhausted retries where
guardianAI's may quarantine. -/
theorem C8_variant_equivalence (qdir : Option String) (st : PathState)
    (path : String) (isf : Bool) (owner : String) (llm : Except Unit Raw)
    (nf : JVal) (h : classify llm = .ok nf)
    (hmap : (user_to_machine.lookup owner).isSome = true)
    (hnq : py_truthy nf = false ∨ st.os_path_exists = false ∨
           ∃ a, 1 ≤ a ∧ a ≤ 3 ∧ attempt_raises st a = false) :
    user_to_machine2 = user_to_machine ++ [("APAC\\SINGSID", "C185LX083361246")]
    ∧ process_name qdir st path isf owner llm =
        process_name2 st path isf owner llm
    ∧ (∀ st2 mr2 d2, st2.os_path_exists = true →
        (∀ n, attempt_raises st2 n = true) → 1 ≤ mr2 →
        (delete_path2 st2 mr2 d2).1 = some ⟨false, .Failed⟩) := by
  have hm2eq : user_to_machine2 =
      user_to_machine ++ [("APAC\\SINGSID", "C185LX083361246")] := rfl
  have hlk : user_to_machine2.lookup owner = user_to_machine.lookup owner := by
    rw [hm2eq]
    exact lookup_append_left _ _ _ hmap
  refine ⟨hm2eq, ?_, ?_⟩
  · rw [process_name_shape qdir st path isf owner llm nf h,
        process_name2_shape st path isf owner llm nf h, hlk]
    rcases hnq with ht | hd
    · simp [ht]
    · have hdel : delete_path st path qdir 3 2 = delete_path2 st 3 2 :=
        delete_path_agree st path qdir 3 2 hd
      rw [hdel]
  · intro st2 mr2 d2 hex2 hfail2 hmr2
    rw [delete_path2_allFail st2 mr2 d2 hex2 hfail2 hmr2]

theorem C8_variant_equivalence_witness :
    user_to_machine2 = user_to_machine ++ [("APAC\\SINGSID", "C185LX083361246")]
    ∧ process_name (some "Q") stFirstTry "C:\\w\\Rahul.txt" false
        "APAC\\HEKOLLI" llmFoundTrue =
      process_name2 stFirstTry "C:\\w\\Rahul.txt" false
        "APAC\\HEKOLLI" llmFoundTrue := by
  have h := C8_variant_equivalence (some "Q") stFirstTry "C:\\w\\Rahul.txt"
    false "APAC\\HEKOLLI" llmFoundTrue (.jbool true) rfl rfl
    (Or.inr (Or.inr ⟨1, by omega, by omega, rfl⟩))
  exact ⟨h.1, h.2.1⟩

end Guardian
